import Mathlib

set_option autoImplicit false

/-!
Verification of the Oncoatlas variant detection and clinical annotation
pipeline.  The definitions below are a shallow embedding of the Python
sources: `backend/app/routers/analyses.py` (FASTA readers, `find_snvs_simple`,
`find_known_pathogenic_variants_from_sequence`, `build_text_summary`,
`run_germline_analysis`), `backend/app/local_germline_db.py`
(`LOCAL_GERMLINE_VARIANTS`), `backend/app/services/analysis_service.py`
(`_load_fasta`) and `backend_legacy/app/services/clinvar_client.py`
(`query_clinvar_hgvs`, `LOCAL_KNOWN_VARIANTS`).  Sequences are `List Char`,
Python ints are `Nat`/`Int`, fallible code returns `Except`.
-/

namespace Oncoatlas

/-- A single SNV call dict as built by `find_snvs_simple`
(`backend/app/routers/analyses.py`, lines 120-128). -/
structure VariantCall where
  gene : String
  position : Nat
  ref : Char
  alt : Char
  type : String
deriving DecidableEq

/-- One iteration of the `for i in range(n)` loop body of `find_snvs_simple`
(lines 114-128): on a mismatch the total is incremented and, when the preview
list is still below `max_snvs_preview`, a call is appended. -/
def snvStep (ref_seq sample_seq : List Char) (gene : String)
    (max_snvs_preview : Nat) (st : List VariantCall × Nat) (i : Nat) :
    List VariantCall × Nat :=
  let r := ref_seq.getD i ' '
  let s := sample_seq.getD i ' '
  if r ≠ s then
    (if st.1.length < max_snvs_preview then
        st.1 ++ [⟨gene, i + 1, r, s, "SNV"⟩]
      else st.1,
      st.2 + 1)
  else st

/-- `find_snvs_simple(ref_seq, sample_seq, gene, max_snvs_preview)`
(`backend/app/routers/analyses.py`, lines 96-134): position-wise diff over the
overlap `0..min(len,len)-1`, followed by the `abs(len(ref)-len(sample))`
tail penalty when the lengths differ. -/
def find_snvs_simple (ref_seq sample_seq : List Char) (gene : String)
    (max_snvs_preview : Nat) : List VariantCall × Nat :=
  let n := min ref_seq.length sample_seq.length
  let st := (List.range n).foldl
    (snvStep ref_seq sample_seq gene max_snvs_preview) ([], 0)
  if ref_seq.length ≠ sample_seq.length then
    (st.1, st.2 + ((ref_seq.length : Int) - (sample_seq.length : Int)).natAbs)
  else st

/-- Spec-side predicate: position `i` is a mismatch between the two
sequences. -/
def snvPred (ref_seq sample_seq : List Char) (i : Nat) : Bool :=
  ref_seq.getD i ' ' != sample_seq.getD i ' '

/-- Spec-side call built for mismatch position `i` (1-based in the output). -/
def snvCall (ref_seq sample_seq : List Char) (gene : String) (i : Nat) :
    VariantCall :=
  ⟨gene, i + 1, ref_seq.getD i ' ', sample_seq.getD i ' ', "SNV"⟩

/-- Spec-side list of calls for the mismatch positions of an index list. -/
def snvCalls (ref_seq sample_seq : List Char) (gene : String) (L : List Nat) :
    List VariantCall :=
  (L.filter (snvPred ref_seq sample_seq)).map (snvCall ref_seq sample_seq gene)

/-- Spec-side mismatch count: the number of positions
`i ∈ 0..min(len,len)-1` where the two sequences differ. -/
def mismatchCount (ref_seq sample_seq : List Char) : Nat :=
  (List.range (min ref_seq.length sample_seq.length)).countP
    (snvPred ref_seq sample_seq)

theorem snvStep_eq (rs ss : List Char) (g : String) (k : Nat)
    (st : List VariantCall × Nat) (i : Nat) :
    snvStep rs ss g k st i =
      if snvPred rs ss i then
        (if st.1.length < k then st.1 ++ [snvCall rs ss g i] else st.1,
          st.2 + 1)
      else st := by
  simp only [snvStep, snvPred, snvCall, ne_eq, bne_iff_ne]

theorem snvFoldSpec (rs ss : List Char) (g : String) (k : Nat) :
    ∀ (L : List Nat) (pv : List VariantCall) (t : Nat), pv.length ≤ k →
      L.foldl (snvStep rs ss g k) (pv, t) =
        (pv ++ (snvCalls rs ss g L).take (k - pv.length),
          t + L.countP (snvPred rs ss))
  | [], pv, t, _ => by
      simp [snvCalls]
  | i :: L, pv, t, h => by
      rw [List.foldl_cons, snvStep_eq]
      cases hp : snvPred rs ss i with
      | true =>
        rw [if_pos rfl]
        by_cases hlt : pv.length < k
        · rw [if_pos hlt,
            snvFoldSpec rs ss g k L (pv ++ [snvCall rs ss g i]) (t + 1)
              (by simpa using hlt)]
          have hk : k - pv.length = (k - (pv.length + 1)) + 1 := by omega
          simp only [snvCalls, List.filter_cons, hp, if_true, List.map_cons,
            List.countP_cons, List.length_append, List.length_singleton, hk,
            List.take_succ_cons, List.append_assoc, List.singleton_append,
            Prod.mk.injEq]
          exact ⟨trivial, by omega⟩
        · rw [if_neg hlt, snvFoldSpec rs ss g k L pv (t + 1) h]
          have hk : k - pv.length = 0 := by omega
          simp only [snvCalls, List.filter_cons, hp, if_true, List.map_cons,
            List.countP_cons, hk, List.take_zero, List.append_nil,
            Prod.mk.injEq]
          exact ⟨trivial, by omega⟩
      | false =>
        rw [if_neg Bool.false_ne_true, snvFoldSpec rs ss g k L pv t h]
        simp only [snvCalls, List.filter_cons, hp, List.countP_cons,
          Bool.false_eq_true, if_false]
        simp

/-- Master characterization of `find_snvs_simple`: the preview is the first
`max_snvs_preview` mismatch calls of the overlap, and the total is the
mismatch count plus the absolute length difference. -/
theorem find_snvs_simple_eq (rs ss : List Char) (g : String) (k : Nat) :
    find_snvs_simple rs ss g k =
      ((snvCalls rs ss g (List.range (min rs.length ss.length))).take k,
        mismatchCount rs ss +
          ((rs.length : Int) - (ss.length : Int)).natAbs) := by
  have h0 := snvFoldSpec rs ss g k (List.range (min rs.length ss.length)) [] 0
    (Nat.zero_le k)
  simp only [find_snvs_simple]
  rw [h0]
  by_cases hl : rs.length = ss.length
  · simp [hl, mismatchCount]
  · simp [hl, mismatchCount]

theorem snvPred_self (rs : List Char) (i : Nat) : snvPred rs rs i = false := by
  simp [snvPred]

theorem mem_snvCalls_range (rs ss : List Char) (g : String) (n : Nat)
    (c : VariantCall) (hc : c ∈ snvCalls rs ss g (List.range n)) :
    ∃ i, i < n ∧ snvPred rs ss i = true ∧ c = snvCall rs ss g i := by
  simp only [snvCalls, List.mem_map, List.mem_filter, List.mem_range] at hc
  obtain ⟨i, ⟨hi, hp⟩, rfl⟩ := hc
  exact ⟨i, hi, hp, rfl⟩

theorem snvCalls_length (rs ss : List Char) (g : String) :
    (snvCalls rs ss g (List.range (min rs.length ss.length))).length =
      mismatchCount rs ss := by
  simp [snvCalls, mismatchCount, List.countP_eq_length_filter]

/-- C1: `find_snvs_simple` returns a total equal to the number of mismatching
positions in the overlap `0..min(len,len)-1` plus `abs(len(ref)-len(sample))`
(zero when the lengths agree); every emitted `VariantCall` lies inside the
overlap; an empty input gives the other input's length as total with an empty
call list, and equal inputs give zero count and an empty list. -/
theorem C1_diff_total_and_overlap (rs ss : List Char) (g : String) (k : Nat) :
    (find_snvs_simple rs ss g k).2 =
        mismatchCount rs ss + ((rs.length : Int) - (ss.length : Int)).natAbs
      ∧ (∀ c ∈ (find_snvs_simple rs ss g k).1,
          c.position ≤ min rs.length ss.length)
      ∧ (rs = [] → find_snvs_simple rs ss g k = ([], ss.length))
      ∧ (ss = [] → find_snvs_simple rs ss g k = ([], rs.length))
      ∧ (rs = ss → find_snvs_simple rs ss g k = ([], 0)) := by
  refine ⟨by rw [find_snvs_simple_eq], ?_, ?_, ?_, ?_⟩
  · intro c hc
    rw [find_snvs_simple_eq] at hc
    obtain ⟨i, hi, _, rfl⟩ :=
      mem_snvCalls_range rs ss g _ c (List.mem_of_mem_take hc)
    simpa [snvCall] using hi
  · rintro rfl
    rw [find_snvs_simple_eq]
    simp [snvCalls, mismatchCount]
  · rintro rfl
    rw [find_snvs_simple_eq]
    simp [snvCalls, mismatchCount]
  · rintro rfl
    rw [find_snvs_simple_eq]
    simp [snvCalls, mismatchCount, snvPred_self, List.filter_eq_nil_iff]

theorem C1_diff_total_and_overlap_witness :
    find_snvs_simple [] "AC".toList "BRCA1" 500 = ([], 2) ∧
      find_snvs_simple "AC".toList "AC".toList "BRCA1" 500 = ([], 0) :=
  ⟨(C1_diff_total_and_overlap [] "AC".toList "BRCA1" 500).2.2.1 rfl,
    (C1_diff_total_and_overlap "AC".toList "AC".toList "BRCA1" 500).2.2.2.2 rfl⟩

/-- C5 (counterexample): the spec scenario reference `"ATCGATCG"`, sample
`"ATCAATCG"` yields one SNV at 1-based position 4 (`G→A` at the 4th symbol),
not position 5 as the claim states. -/
theorem C5_scenario_counterexample :
    find_snvs_simple "ATCGATCG".toList "ATCAATCG".toList "BRCA1" 500 =
        ([⟨"BRCA1", 4, 'G', 'A', "SNV"⟩], 1) ∧
      find_snvs_simple "ATCGATCG".toList "ATCAATCG".toList "BRCA1" 500 ≠
        ([⟨"BRCA1", 5, 'G', 'A', "SNV"⟩], 1) := by
  exact ⟨by decide, by decide⟩

/-- C5 (amended): for reference `"ATCGATCG"` and sample `"ATCAATCG"`, the
diff operation returns exactly one SNV call `{position: 4, ref: 'G',
alt: 'A'}` (1-based) and `total_diff_count = 1`. -/
theorem C5_scenario_amended :
    find_snvs_simple "ATCGATCG".toList "ATCAATCG".toList "BRCA1" 500 =
      ([⟨"BRCA1", 4, 'G', 'A', "SNV"⟩], 1) := by
  decide

/-- C6: when the overlap contains more than `max_snvs_preview` mismatches,
the preview list has exactly `max_snvs_preview` entries while the total still
counts every mismatch plus the length penalty, untruncated. -/
theorem C6_preview_truncation (rs ss : List Char) (g : String) (k : Nat)
    (h : k < mismatchCount rs ss) :
    (find_snvs_simple rs ss g k).1.length = k ∧
      (find_snvs_simple rs ss g k).2 =
        mismatchCount rs ss +
          ((rs.length : Int) - (ss.length : Int)).natAbs := by
  rw [find_snvs_simple_eq]
  refine ⟨?_, rfl⟩
  rw [List.length_take, snvCalls_length]
  omega

theorem C6_preview_truncation_witness :
    1 < mismatchCount "AA".toList "BB".toList ∧
      (find_snvs_simple "AA".toList "BB".toList "BRCA1" 1).1.length = 1 :=
  ⟨by decide,
    (C6_preview_truncation "AA".toList "BB".toList "BRCA1" 1 (by decide)).1⟩

theorem filter_range_eq_singleton (q : Nat → Bool) :
    ∀ (n p : Nat), p < n → q p = true →
      (∀ i, i < n → i ≠ p → q i = false) →
      (List.range n).filter q = [p]
  | 0, p, hp, _, _ => absurd hp (Nat.not_lt_zero p)
  | n + 1, p, hp, hq, hrest => by
      rw [List.range_succ, List.filter_append]
      rcases Nat.lt_succ_iff_lt_or_eq.mp hp with hlt | rfl
      · rw [filter_range_eq_singleton q n p hlt hq
          (fun i hi hne => hrest i (Nat.lt_succ_of_lt hi) hne)]
        have hn : q n = false := hrest n (Nat.lt_succ_self n) (by omega)
        simp [hn]
      · have hnil : (List.range p).filter q = [] := by
          rw [List.filter_eq_nil_iff]
          intro i hi
          rw [List.mem_range] at hi
          simp [hrest i (Nat.lt_succ_of_lt hi) (Nat.ne_of_lt hi)]
        simp [hnil, hq]

/-- C8 (counterexample): with preview limit `k = 0` the claim fails —
`"AB"` and `"AC"` are equal-length and differ at exactly one position, yet
the returned call list is empty (the total is still 1), so the diff does not
return "exactly one VariantCall" for every preview limit. -/
theorem C8_single_mismatch_counterexample :
    find_snvs_simple "AB".toList "AC".toList "BRCA1" 0 = ([], 1) ∧
      (find_snvs_simple "AB".toList "AC".toList "BRCA1" 0).1.length ≠ 1 := by
  exact ⟨by decide, by decide⟩

/-- C8 (amended): for equal-length sequences differing at exactly one
0-based position `p`, and any preview limit of at least one entry (the
pipeline uses 500), `find_snvs_simple` returns exactly one call at 1-based
position `p+1` with ref `rs[p]`, alt `ss[p]`, and a total of 1. -/
theorem C8_single_mismatch (rs ss : List Char) (g : String) (k p : Nat)
    (hlen : rs.length = ss.length) (hk : 1 ≤ k) (hp : p < rs.length)
    (hdiff : rs.getD p ' ' ≠ ss.getD p ' ')
    (hsame : ∀ i, i < rs.length → i ≠ p → rs.getD i ' ' = ss.getD i ' ') :
    find_snvs_simple rs ss g k =
      ([⟨g, p + 1, rs.getD p ' ', ss.getD p ' ', "SNV"⟩], 1) := by
  have hmin : min rs.length ss.length = rs.length := by omega
  have hfil : (List.range rs.length).filter (snvPred rs ss) = [p] :=
    filter_range_eq_singleton (snvPred rs ss) rs.length p hp
      (by simp only [snvPred, bne_iff_ne, ne_eq]; exact hdiff)
      (fun i hi hne => by
        simp only [snvPred, bne_eq_false_iff_eq]
        exact hsame i hi hne)
  have hcalls : snvCalls rs ss g (List.range rs.length) =
      [snvCall rs ss g p] := by
    rw [snvCalls, hfil]; rfl
  have hcount : mismatchCount rs ss = 1 := by
    rw [mismatchCount, List.countP_eq_length_filter, hmin, hfil]; rfl
  have habs : ((rs.length : Int) - (ss.length : Int)).natAbs = 0 := by
    rw [hlen]; simp
  rw [find_snvs_simple_eq, hmin, hcalls, hcount, habs]
  obtain ⟨m, rfl⟩ : ∃ m, k = m + 1 := ⟨k - 1, by omega⟩
  simp [snvCall]

theorem C8_single_mismatch_witness :
    find_snvs_simple "AB".toList "AC".toList "BRCA1" 500 =
      ([⟨"BRCA1", 2, 'B', 'C', "SNV"⟩], 1) :=
  C8_single_mismatch "AB".toList "AC".toList "BRCA1" 500 1 rfl (by decide)
    (by decide) (by decide) (by decide)

/-- C10: every call returned by `find_snvs_simple` has a 1-based position
inside the overlap, its ref/alt are the symbols of the two sequences at that
position, ref differs from alt, and the list is strictly increasing in
position. -/
theorem C10_call_invariants (rs ss : List Char) (g : String) (k : Nat) :
    (∀ c ∈ (find_snvs_simple rs ss g k).1,
        1 ≤ c.position ∧ c.position ≤ min rs.length ss.length ∧
          c.ref = rs.getD (c.position - 1) ' ' ∧
          c.alt = ss.getD (c.position - 1) ' ' ∧ c.ref ≠ c.alt)
      ∧ (find_snvs_simple rs ss g k).1.Pairwise
          (fun a b => a.position < b.position) := by
  rw [find_snvs_simple_eq]
  constructor
  · intro c hc
    obtain ⟨i, hi, hpred, rfl⟩ :=
      mem_snvCalls_range rs ss g _ c (List.mem_of_mem_take hc)
    refine ⟨by simp [snvCall], by simpa [snvCall] using hi, by simp [snvCall],
      by simp [snvCall], ?_⟩
    simpa [snvCall, snvPred] using hpred
  · have h1 : (List.range (min rs.length ss.length)).Pairwise (· < ·) :=
      List.pairwise_lt_range _
    have h2 := h1.filter (snvPred rs ss)
    have h3 : (snvCalls rs ss g
        (List.range (min rs.length ss.length))).Pairwise
          (fun a b => a.position < b.position) := by
      rw [snvCalls, List.pairwise_map]
      exact h2.imp (fun h => by simpa [snvCall] using Nat.succ_lt_succ h)
    exact h3.sublist (List.take_sublist _ _)

theorem C10_call_invariants_witness :
    1 ≤ (⟨"BRCA1", 4, 'G', 'A', "SNV"⟩ : VariantCall).position ∧
      (⟨"BRCA1", 4, 'G', 'A', "SNV"⟩ : VariantCall).position ≤
        min "ATCGATCG".toList.length "ATCAATCG".toList.length ∧
      (⟨"BRCA1", 4, 'G', 'A', "SNV"⟩ : VariantCall).ref =
        "ATCGATCG".toList.getD 3 ' ' ∧
      (⟨"BRCA1", 4, 'G', 'A', "SNV"⟩ : VariantCall).alt =
        "ATCAATCG".toList.getD 3 ' ' ∧
      (⟨"BRCA1", 4, 'G', 'A', "SNV"⟩ : VariantCall).ref ≠
        (⟨"BRCA1", 4, 'G', 'A', "SNV"⟩ : VariantCall).alt :=
  (C10_call_invariants "ATCGATCG".toList "ATCAATCG".toList "BRCA1" 500).1
    ⟨"BRCA1", 4, 'G', 'A', "SNV"⟩ (by decide)

/-! ### FASTA readers (SequenceReader) -/

/-- Python `str.strip()` on ASCII whitespace, as applied to each line by the
readers. -/
def pstrip (s : String) : String :=
  String.mk
    (((s.toList.dropWhile Char.isWhitespace).reverse.dropWhile
      Char.isWhitespace).reverse)

/-- Python `str.upper()` (ASCII letters), as applied to sequence lines. -/
def pupper (s : String) : String := String.mk (s.toList.map Char.toUpper)

/-- Python `line[1:]`: drop the first character. -/
def dropFirst (s : String) : String := String.mk s.toList.tail

/-- Python `line.startswith(">")`. -/
def pstartsWithGT (s : String) : Bool :=
  match s.toList with
  | [] => false
  | c :: _ => c = '>'

/-- Python `str.splitlines()` restricted to the `\n`, `\r` and `\r\n` line
terminators (no trailing empty line for a trailing terminator). -/
def splitlinesAux : List Char → List Char → List String
  | [], acc => if acc.isEmpty then [] else [String.mk acc.reverse]
  | '\r' :: '\n' :: rest, acc => String.mk acc.reverse :: splitlinesAux rest []
  | '\r' :: rest, acc => String.mk acc.reverse :: splitlinesAux rest []
  | '\n' :: rest, acc => String.mk acc.reverse :: splitlinesAux rest []
  | c :: rest, acc => splitlinesAux rest (c :: acc)

def splitlines (s : String) : List String := splitlinesAux s.toList []

/-- Loop body shared by `_read_fasta_file` (lines 43-50) and
`read_uploaded_fasta` (lines 79-86) of `backend/app/routers/analyses.py`:
strip the line, skip blanks, a `>` line REPLACES the current header
(`header = line[1:]`), any other line is appended upper-cased. -/
def fastaStepLast (st : String × List String) (line : String) :
    String × List String :=
  let l := pstrip line
  if l = "" then st
  else if pstartsWithGT l then (dropFirst l, st.2)
  else (st.1, st.2 ++ [pupper l])

/-- `_read_fasta_file` (`backend/app/routers/analyses.py`, lines 32-52),
modelled on the file's list of lines. -/
def read_fasta_file (lines : List String) : String × String :=
  let st := lines.foldl fastaStepLast ("", [])
  (st.1, String.join st.2)

/-- `read_uploaded_fasta` (`backend/app/routers/analyses.py`, lines 69-88),
on the decoded upload text. -/
def read_uploaded_fasta (text : String) : String × String :=
  let st := (splitlines text).foldl fastaStepLast ("", [])
  (st.1, String.join st.2)

/-- Loop body of `_load_fasta`
(`backend/app/services/analysis_service.py`, lines 70-78): a `>` line
assigns `line[1:].strip()` as header only when the header is still empty
(`if not header`); other handling as in the other readers. -/
def fastaStepFirst (st : String × List String) (line : String) :
    String × List String :=
  let l := pstrip line
  if l = "" then st
  else if pstartsWithGT l then
    (if st.1 = "" then (pstrip (dropFirst l), st.2) else st)
  else (st.1, st.2 ++ [pupper l])

/-- `_load_fasta` (`backend/app/services/analysis_service.py`,
lines 61-81), on the file's list of lines. -/
def load_fasta (lines : List String) : String × String :=
  let st := lines.foldl fastaStepFirst ("", [])
  (st.1, String.join st.2)

/-- Spec-side: contents (marker removed) of the header-like lines, in
order. -/
def headerContents (lines : List String) : List String :=
  ((lines.map pstrip).filter pstartsWithGT).map dropFirst

/-- Spec-side: the header the `analyses.py` readers keep — the LAST
header-like line's content. -/
def lastHeaderSpec (lines : List String) : String :=
  (headerContents lines).getLast?.getD ""

/-- Spec-side: the header `_load_fasta` keeps — the first header-like line
whose stripped content is non-empty. -/
def firstHeaderSpec (lines : List String) : String :=
  ((((headerContents lines).map pstrip).find? (fun l => l != ""))).getD ""

/-- Spec-side: the upper-cased stripped non-blank non-header lines, in
order. -/
def seqParts (lines : List String) : List String :=
  ((lines.map pstrip).filter
    (fun l => (l != "") && !(pstartsWithGT l))).map pupper

/-- Spec-side: the normalized sequence — concatenation of `seqParts`. -/
def seqSpec (lines : List String) : String := String.join (seqParts lines)

theorem getLast?_getD_cons (a h : String) (L : List String) :
    ((a :: L).getLast?.getD h) = L.getLast?.getD a := by
  induction L generalizing a h with
  | nil => rfl
  | cons b M ih => rw [List.getLast?_cons_cons, ih b h, ih b a]

theorem fastaLast_foldl :
    ∀ (lines : List String) (h : String) (ps : List String),
      lines.foldl fastaStepLast (h, ps) =
        ((headerContents lines).getLast?.getD h, ps ++ seqParts lines)
  | [], h, ps => by simp [headerContents, seqParts]
  | line :: rest, h, ps => by
      rw [List.foldl_cons]
      by_cases hb : pstrip line = ""
      · have hstep : fastaStepLast (h, ps) line = (h, ps) := by
          simp [fastaStepLast, hb]
        rw [hstep, fastaLast_foldl rest h ps]
        have hgt : pstartsWithGT "" = false := rfl
        simp [headerContents, seqParts, List.filter_cons, hb, hgt]
      · cases hs : pstartsWithGT (pstrip line) with
        | true =>
          have hstep : fastaStepLast (h, ps) line =
              (dropFirst (pstrip line), ps) := by
            simp [fastaStepLast, hb, hs]
          rw [hstep, fastaLast_foldl rest (dropFirst (pstrip line)) ps]
          simp only [headerContents, List.map_cons, List.filter_cons, hs,
            if_true, List.map_cons, seqParts, hb]
          rw [getLast?_getD_cons]
          simp [seqParts, List.filter_cons, hs, hb]
        | false =>
          have hstep : fastaStepLast (h, ps) line =
              (h, ps ++ [pupper (pstrip line)]) := by
            simp [fastaStepLast, hb, hs]
          rw [hstep, fastaLast_foldl rest h (ps ++ [pupper (pstrip line)])]
          simp [headerContents, seqParts, List.filter_cons, hb, hs,
            List.append_assoc]

theorem fastaFirst_foldl :
    ∀ (lines : List String) (h : String) (ps : List String),
      lines.foldl fastaStepFirst (h, ps) =
        (if h = "" then firstHeaderSpec lines else h, ps ++ seqParts lines)
  | [], h, ps => by
      by_cases hh : h = ""
      · simp [firstHeaderSpec, headerContents, seqParts, hh]
      · simp [firstHeaderSpec, headerContents, seqParts, hh]
  | line :: rest, h, ps => by
      rw [List.foldl_cons]
      by_cases hb : pstrip line = ""
      · have hstep : fastaStepFirst (h, ps) line = (h, ps) := by
          simp [fastaStepFirst, hb]
        rw [hstep, fastaFirst_foldl rest h ps]
        have hgt : pstartsWithGT "" = false := rfl
        simp [firstHeaderSpec, headerContents, seqParts, List.filter_cons,
          hb, hgt]
      · cases hs : pstartsWithGT (pstrip line) with
        | true =>
          have hhc : headerContents (line :: rest) =
              dropFirst (pstrip line) :: headerContents rest := by
            simp [headerContents, List.filter_cons, hs]
          have hsq : seqParts (line :: rest) = seqParts rest := by
            simp [seqParts, List.filter_cons, hs, hb]
          by_cases hh : h = ""
          · have hstep : fastaStepFirst (h, ps) line =
                (pstrip (dropFirst (pstrip line)), ps) := by
              simp [fastaStepFirst, hb, hs, hh]
            rw [hstep, fastaFirst_foldl rest (pstrip (dropFirst (pstrip line))) ps]
            by_cases hc : pstrip (dropFirst (pstrip line)) = ""
            · have hfh : firstHeaderSpec (line :: rest) =
                  firstHeaderSpec rest := by
                simp only [firstHeaderSpec, hhc, List.map_cons,
                  List.find?_cons]
                have hb' : ((pstrip (dropFirst (pstrip line))) != "") =
                    false := by simp [hc]
                rw [hb']
              rw [hfh, hsq]
              simp [hc, hh]
            · have hfh : firstHeaderSpec (line :: rest) =
                  pstrip (dropFirst (pstrip line)) := by
                simp only [firstHeaderSpec, hhc, List.map_cons,
                  List.find?_cons]
                have hb' : ((pstrip (dropFirst (pstrip line))) != "") =
                    true := by simp [hc]
                rw [hb']
                rfl
              rw [hfh, hsq]
              simp [hc, hh]
          · have hstep : fastaStepFirst (h, ps) line = (h, ps) := by
              simp [fastaStepFirst, hb, hs, hh]
            rw [hstep, fastaFirst_foldl rest h ps]
            simp [hh, hsq]
        | false =>
          have hstep : fastaStepFirst (h, ps) line =
              (h, ps ++ [pupper (pstrip line)]) := by
            simp [fastaStepFirst, hb, hs]
          rw [hstep, fastaFirst_foldl rest h (ps ++ [pupper (pstrip line)])]
          simp [firstHeaderSpec, headerContents, seqParts, List.filter_cons,
            hb, hs, List.append_assoc]

/-- C4 (counterexample): on a text with two header lines the
`analyses.py` reader returns the LAST header (`"B"`), not the first
(`"A"`) as the claim states. -/
theorem C4_reader_counterexample :
    read_uploaded_fasta ">A\nACGT\n>B\nTT" = ("B", "ACGTTT") ∧
      read_uploaded_fasta ">A\nACGT\n>B\nTT" ≠ ("A", "ACGTTT") := by
  exact ⟨by decide, by decide⟩

/-- C4 (amended): the readers in `routers/analyses.py`
(`_read_fasta_file`, `read_uploaded_fasta`) keep the LAST line starting with
`>` as the header, while `_load_fasta` in `services/analysis_service.py`
keeps the first header-like line with non-empty stripped content and ignores
subsequent ones; in all three, all other non-blank lines are concatenated in
order, upper-cased, with leading and trailing whitespace stripped per
line. -/
theorem C4_reader_headers_amended (text : String) (lines : List String) :
    read_uploaded_fasta text =
        (lastHeaderSpec (splitlines text), seqSpec (splitlines text))
      ∧ read_fasta_file lines = (lastHeaderSpec lines, seqSpec lines)
      ∧ load_fasta lines = (firstHeaderSpec lines, seqSpec lines) := by
  refine ⟨?_, ?_, ?_⟩
  · rw [read_uploaded_fasta, fastaLast_foldl (splitlines text) "" []]
    rfl
  · rw [read_fasta_file, fastaLast_foldl lines "" []]
    rfl
  · rw [load_fasta, fastaFirst_foldl lines "" []]
    rfl

/-! ### AnnotationResolver: `backend_legacy/app/services/clinvar_client.py` -/

/-- The fields `_parse_summary` extracts from an ESummary document
(`clinvar_client.py`, lines 87-122). -/
structure ParsedSummary where
  title : Option String
  clinical_significance : Option String
  review_status : Option String
  conditions : List String
deriving DecidableEq

/-- The stable result dict of `query_clinvar_hgvs`
(`clinvar_client.py`, lines 144-155). -/
structure ClinVarResult where
  clinvar_id : Option String
  title : Option String
  clinical_significance : Option String
  review_status : Option String
  conditions : List String
  hgvs_c_primary : String
  hgvs_c_all : List String
  override_local : Bool
  error : Option String
deriving DecidableEq

/-- One entry of the `LOCAL_KNOWN_VARIANTS` dict
(`clinvar_client.py`, lines 25-44). -/
structure LocalOverride where
  clinical_significance : Option String
  conditions : List String
deriving DecidableEq

/-- The `LOCAL_KNOWN_VARIANTS` dict (`clinvar_client.py`, lines 25-44), as
its `.get` lookup function. -/
def LOCAL_KNOWN_VARIANTS_get (hgvs : String) : Option LocalOverride :=
  if hgvs = "NM_007294.4:c.68_69delAG" then
    some ⟨some "Pathogenic",
      ["Hereditary breast-ovarian cancer syndrome (BRCA1)"]⟩
  else if hgvs = "NM_007294.4:c.5266dupC" then
    some ⟨some "Pathogenic",
      ["Hereditary breast-ovarian cancer syndrome (BRCA1)"]⟩
  else if hgvs = "NM_000059.4:c.5946delT" then
    some ⟨some "Pathogenic",
      ["Hereditary breast-ovarian cancer syndrome (BRCA2)"]⟩
  else if hgvs = "NM_000059.3:c.2808_2811delACAA" then
    some ⟨some "Pathogenic",
      ["Hereditary breast-ovarian cancer syndrome (BRCA2)"]⟩
  else none

/-- Python falsiness of an optional string field (`None` or `""`). -/
def optStrFalsy : Option String → Bool
  | none => true
  | some s => s = ""

/-- The `try` block of `query_clinvar_hgvs` (lines 145-172): the base result
dict, updated by the two-step external lookup.  `esearch` models the outcome
of `_esearch_hgvs(hgvs)` — an exception message or an optional UID;
`esummary uid` models `_parse_summary(_esummary_uid(uid))` — an exception
message or the parsed document.  An exception in either step leaves the data
fields untouched and records the message in `error`. -/
def clinvarExternalPhase (esearch : Except String (Option String))
    (esummary : String → Except String ParsedSummary) (hgvs : String) :
    ClinVarResult :=
  let result0 : ClinVarResult :=
    { clinvar_id := none, title := none, clinical_significance := none,
      review_status := none, conditions := [], hgvs_c_primary := hgvs,
      hgvs_c_all := [hgvs], override_local := false, error := none }
  match esearch with
  | .error msg => { result0 with error := some msg }
  | .ok none =>
      { result0 with error := some "No ClinVar record found for this HGVS." }
  | .ok (some uid) =>
      match esummary uid with
      | .error msg => { result0 with error := some msg }
      | .ok parsed =>
          { result0 with
              clinvar_id := some uid,
              title := parsed.title,
              clinical_significance := parsed.clinical_significance,
              review_status := parsed.review_status,
              conditions := parsed.conditions }

/-- `query_clinvar_hgvs` (`clinvar_client.py`, lines 130-186): the external
phase followed by the local override block (lines 174-186), which fills only
the falsy fields and sets `override_local` whenever the identifier is in the
table. -/
def query_clinvar_hgvs (esearch : Except String (Option String))
    (esummary : String → Except String ParsedSummary) (hgvs : String) :
    ClinVarResult :=
  let result1 := clinvarExternalPhase esearch esummary hgvs
  match LOCAL_KNOWN_VARIANTS_get hgvs with
  | none => result1
  | some ov =>
      let r1 := if optStrFalsy result1.clinical_significance then
          { result1 with clinical_significance := ov.clinical_significance }
        else result1
      let r2 := if r1.conditions.isEmpty then
          { r1 with conditions := ov.conditions }
        else r1
      let r3 := if optStrFalsy r2.review_status then
          { r2 with review_status := some "local_override" }
        else r2
      { r3 with override_local := true }

theorem localOverride_clinsig (hgvs : String) (ov : LocalOverride)
    (h : LOCAL_KNOWN_VARIANTS_get hgvs = some ov) :
    ov.clinical_significance = some "Pathogenic" := by
  unfold LOCAL_KNOWN_VARIANTS_get at h
  split_ifs at h
  all_goals obtain rfl := Option.some.inj h
  all_goals rfl

theorem clinvarExternalPhase_override_local
    (es : Except String (Option String))
    (esu : String → Except String ParsedSummary) (hgvs : String) :
    (clinvarExternalPhase es esu hgvs).override_local = false := by
  unfold clinvarExternalPhase
  rcases es with msg | o
  · rfl
  · rcases o with _ | uid
    · rfl
    · rcases hx : esu uid with msg | parsed <;> simp [hx]

/-- C3 (counterexample): for an identifier in the local table whose external
response already provided all three fields, the code keeps every external
field untouched yet still sets `override_local = true`, contradicting the
claim that the origin marker is set only when the local table actually
supplied a field. -/
theorem C3_origin_counterexample :
    (query_clinvar_hgvs (.ok (some "17662"))
        (fun _ => .ok ⟨some "NM_007294.4(BRCA1):c.68_69del",
          some "Pathogenic", some "reviewed by expert panel",
          ["Breast-ovarian cancer, familial 1"]⟩)
        "NM_007294.4:c.68_69delAG").clinical_significance =
        some "Pathogenic" ∧
      (query_clinvar_hgvs (.ok (some "17662"))
        (fun _ => .ok ⟨some "NM_007294.4(BRCA1):c.68_69del",
          some "Pathogenic", some "reviewed by expert panel",
          ["Breast-ovarian cancer, familial 1"]⟩)
        "NM_007294.4:c.68_69delAG").review_status =
        some "reviewed by expert panel" ∧
      (query_clinvar_hgvs (.ok (some "17662"))
        (fun _ => .ok ⟨some "NM_007294.4(BRCA1):c.68_69del",
          some "Pathogenic", some "reviewed by expert panel",
          ["Breast-ovarian cancer, familial 1"]⟩)
        "NM_007294.4:c.68_69delAG").conditions =
        ["Breast-ovarian cancer, familial 1"] ∧
      (query_clinvar_hgvs (.ok (some "17662"))
        (fun _ => .ok ⟨some "NM_007294.4(BRCA1):c.68_69del",
          some "Pathogenic", some "reviewed by expert panel",
          ["Breast-ovarian cancer, familial 1"]⟩)
        "NM_007294.4:c.68_69delAG").override_local = true := by
  exact ⟨by decide, by decide, by decide, by decide⟩

/-- C3 (amended): non-empty external fields are always kept; the local table
fills only the fields the external phase left empty
(`clinical_significance`, `conditions`, `review_status`, the last with the
sentinel `"local_override"`); when the identifier is not in the table the
result is exactly the external phase's; and `override_local` is set if and
only if the identifier is present in the local table — even when the
external response already provided every field. -/
theorem C3_merge_precedence_amended (es : Except String (Option String))
    (esu : String → Except String ParsedSummary) (hgvs : String)
    (e r : ClinVarResult) (he : e = clinvarExternalPhase es esu hgvs)
    (hr : r = query_clinvar_hgvs es esu hgvs) :
    (optStrFalsy e.clinical_significance = false →
        r.clinical_significance = e.clinical_significance)
      ∧ (e.conditions ≠ [] → r.conditions = e.conditions)
      ∧ (optStrFalsy e.review_status = false →
          r.review_status = e.review_status)
      ∧ (∀ ov, LOCAL_KNOWN_VARIANTS_get hgvs = some ov →
            (optStrFalsy e.clinical_significance = true →
              r.clinical_significance = ov.clinical_significance)
          ∧ (e.conditions = [] → r.conditions = ov.conditions)
          ∧ (optStrFalsy e.review_status = true →
              r.review_status = some "local_override"))
      ∧ (LOCAL_KNOWN_VARIANTS_get hgvs = none → r = e)
      ∧ (r.override_local = true ↔ (LOCAL_KNOWN_VARIANTS_get hgvs).isSome) := by
  subst he hr
  cases hk : LOCAL_KNOWN_VARIANTS_get hgvs with
  | none => simp [query_clinvar_hgvs, hk, clinvarExternalPhase_override_local]
  | some ov =>
      by_cases h1 :
          optStrFalsy (clinvarExternalPhase es esu hgvs).clinical_significance <;>
        by_cases h2 : (clinvarExternalPhase es esu hgvs).conditions.isEmpty <;>
        by_cases h3 :
          optStrFalsy (clinvarExternalPhase es esu hgvs).review_status <;>
        simp_all [query_clinvar_hgvs, hk, List.isEmpty_iff]

theorem C3_merge_precedence_amended_witness :
    (query_clinvar_hgvs (.error "Timeout") (fun _ => .error "Timeout")
      "NM_007294.4:c.5266dupC").override_local = true :=
  (C3_merge_precedence_amended (.error "Timeout") (fun _ => .error "Timeout")
      "NM_007294.4:c.5266dupC" _ _ rfl rfl).2.2.2.2.2.mpr (by decide)

/-- C7: the embedding of `query_clinvar_hgvs` is a total function of the
outcomes of the two network steps — a failure of either step (or an empty
esearch resolution) is recorded in the `error` field instead of being
raised — and when the external lookup yields no data for an identifier
present in the local override table, the result has
`override_local = true` with a non-null `clinical_significance`. -/
theorem C7_error_absorption (esu : String → Except String ParsedSummary)
    (hgvs msg uid : String) :
    ((query_clinvar_hgvs (.error msg) esu hgvs).error = some msg)
      ∧ ((query_clinvar_hgvs (.ok none) esu hgvs).error =
          some "No ClinVar record found for this HGVS.")
      ∧ (esu uid = .error msg →
          (query_clinvar_hgvs (.ok (some uid)) esu hgvs).error = some msg)
      ∧ (∀ ov, LOCAL_KNOWN_VARIANTS_get hgvs = some ov →
          (query_clinvar_hgvs (.error msg) esu hgvs).override_local = true
            ∧ (query_clinvar_hgvs (.error msg) esu
                hgvs).clinical_significance = some "Pathogenic"
            ∧ (query_clinvar_hgvs (.ok none) esu hgvs).override_local = true
            ∧ (query_clinvar_hgvs (.ok none) esu
                hgvs).clinical_significance = some "Pathogenic") := by
  refine ⟨?_, ?_, ?_, ?_⟩
  · cases hk : LOCAL_KNOWN_VARIANTS_get hgvs <;>
      simp [query_clinvar_hgvs, clinvarExternalPhase, hk, optStrFalsy]
  · cases hk : LOCAL_KNOWN_VARIANTS_get hgvs <;>
      simp [query_clinvar_hgvs, clinvarExternalPhase, hk, optStrFalsy]
  · intro hu
    cases hk : LOCAL_KNOWN_VARIANTS_get hgvs <;>
      simp [query_clinvar_hgvs, clinvarExternalPhase, hu, hk, optStrFalsy]
  · intro ov hk
    have hcs := localOverride_clinsig hgvs ov hk
    refine ⟨?_, ?_, ?_, ?_⟩ <;>
      simp [query_clinvar_hgvs, clinvarExternalPhase, hk, optStrFalsy, hcs]

theorem C7_error_absorption_witness :
    ((query_clinvar_hgvs (.error "ConnectionError: boom")
        (fun _ => Except.error "ConnectionError: boom")
        "NM_000059.4:c.5946delT").error = some "ConnectionError: boom")
      ∧ ((query_clinvar_hgvs (.ok (some "9325"))
          (fun _ => Except.error "ConnectionError: boom")
          "NM_000059.4:c.5946delT").error = some "ConnectionError: boom")
      ∧ ((query_clinvar_hgvs (.error "ConnectionError: boom")
          (fun _ => Except.error "ConnectionError: boom")
          "NM_000059.4:c.5946delT").override_local = true)
      ∧ ((query_clinvar_hgvs (.error "ConnectionError: boom")
          (fun _ => Except.error "ConnectionError: boom")
          "NM_000059.4:c.5946delT").clinical_significance =
          some "Pathogenic") := by
  have h := C7_error_absorption
    (fun _ => Except.error "ConnectionError: boom")
    "NM_000059.4:c.5946delT" "ConnectionError: boom" "9325"
  have hov := h.2.2.2
    ⟨some "Pathogenic",
      ["Hereditary breast-ovarian cancer syndrome (BRCA2)"]⟩ (by decide)
  exact ⟨h.1, h.2.2.1 rfl, hov.1, hov.2.1⟩

/-! ### MD5 (RFC 1321), the `hashlib.md5(...).hexdigest()` used by the
fingerprint catalog.  Words are `Nat` reduced modulo `2 ^ 32`. -/

/-- Per-round left-rotation amounts. -/
def md5S : List Nat :=
  [7, 12, 17, 22, 7, 12, 17, 22, 7, 12, 17, 22, 7, 12, 17, 22,
   5, 9, 14, 20, 5, 9, 14, 20, 5, 9, 14, 20, 5, 9, 14, 20,
   4, 11, 16, 23, 4, 11, 16, 23, 4, 11, 16, 23, 4, 11, 16, 23,
   6, 10, 15, 21, 6, 10, 15, 21, 6, 10, 15, 21, 6, 10, 15, 21]

/-- Per-round additive constants (`floor(2^32 * |sin(i+1)|)`). -/
def md5K : List Nat :=
  [0xd76aa478, 0xe8c7b756, 0x242070db, 0xc1bdceee,
   0xf57c0faf, 0x4787c62a, 0xa8304613, 0xfd469501,
   0x698098d8, 0x8b44f7af, 0xffff5bb1, 0x895cd7be,
   0x6b901122, 0xfd987193, 0xa679438e, 0x49b40821,
   0xf61e2562, 0xc040b340, 0x265e5a51, 0xe9b6c7aa,
   0xd62f105d, 0x02441453, 0xd8a1e681, 0xe7d3fbc8,
   0x21e1cde6, 0xc33707d6, 0xf4d50d87, 0x455a14ed,
   0xa9e3e905, 0xfcefa3f8, 0x676f02d9, 0x8d2a4c8a,
   0xfffa3942, 0x8771f681, 0x6d9d6122, 0xfde5380c,
   0xa4beea44, 0x4bdecfa9, 0xf6bb4b60, 0xbebfbc70,
   0x289b7ec6, 0xeaa127fa, 0xd4ef3085, 0x04881d05,
   0xd9d4d039, 0xe6db99e5, 0x1fa27cf8, 0xc4ac5665,
   0xf4292244, 0x432aff97, 0xab9423a7, 0xfc93a039,
   0x655b59c3, 0x8f0ccc92, 0xffeff47d, 0x85845dd1,
   0x6fa87e4f, 0xfe2ce6e0, 0xa3014314, 0x4e0811a1,
   0xf7537e82, 0xbd3af235, 0x2ad7d2bb, 0xeb86d391]

def mask32 : Nat := 0xffffffff

/-- 32-bit left rotation. -/
def rotl32 (x c : Nat) : Nat :=
  ((x <<< c) ||| (x >>> (32 - c))) &&& mask32

/-- The `count` low-order bytes of `n`, little-endian. -/
def toLEBytes (n count : Nat) : List Nat :=
  (List.range count).map (fun i => (n >>> (8 * i)) % 256)

/-- MD5 padding: `0x80`, zeros to 56 mod 64, then the 64-bit little-endian
bit length. -/
def md5Pad (msg : List Nat) : List Nat :=
  msg ++ [0x80] ++
    List.replicate ((56 + 64 - ((msg.length + 1) % 64)) % 64) 0 ++
    toLEBytes ((msg.length * 8) % 2 ^ 64) 8

def chunk64Go : Nat → List Nat → List (List Nat)
  | 0, _ => []
  | _, [] => []
  | fuel + 1, l => l.take 64 :: chunk64Go fuel (l.drop 64)

/-- Split a byte list into 64-byte chunks. -/
def chunk64 (l : List Nat) : List (List Nat) := chunk64Go l.length l

/-- Word `j` of a chunk, little-endian. -/
def leWord (chunk : List Nat) (j : Nat) : Nat :=
  chunk.getD (4 * j) 0 + 256 * chunk.getD (4 * j + 1) 0 +
    65536 * chunk.getD (4 * j + 2) 0 + 16777216 * chunk.getD (4 * j + 3) 0

/-- The four MD5 round functions F, G, H, I. -/
def md5F (i b c d : Nat) : Nat :=
  if i < 16 then (b &&& c) ||| ((mask32 ^^^ b) &&& d)
  else if i < 32 then (d &&& b) ||| ((mask32 ^^^ d) &&& c)
  else if i < 48 then b ^^^ c ^^^ d
  else c ^^^ (b ||| (mask32 ^^^ d))

/-- The message-word index selected in round `i`. -/
def md5G (i : Nat) : Nat :=
  if i < 16 then i
  else if i < 32 then (5 * i + 1) % 16
  else if i < 48 then (3 * i + 5) % 16
  else (7 * i) % 16

/-- One of the 64 rounds on the state `(a, b, c, d)`. -/
def md5Round (chunk : List Nat) (st : Nat × Nat × Nat × Nat) (i : Nat) :
    Nat × Nat × Nat × Nat :=
  let a := st.1
  let b := st.2.1
  let c := st.2.2.1
  let d := st.2.2.2
  let f := (md5F i b c d + a + md5K.getD i 0 + leWord chunk (md5G i)) % 2 ^ 32
  let newB := (b + rotl32 f (md5S.getD i 0)) % 2 ^ 32
  (d, newB, b, c)

/-- Process one 64-byte chunk and add the result into the state. -/
def md5ProcessChunk (st : Nat × Nat × Nat × Nat) (chunk : List Nat) :
    Nat × Nat × Nat × Nat :=
  let r := (List.range 64).foldl (md5Round chunk) st
  ((st.1 + r.1) % 2 ^ 32, (st.2.1 + r.2.1) % 2 ^ 32,
    (st.2.2.1 + r.2.2.1) % 2 ^ 32, (st.2.2.2 + r.2.2.2) % 2 ^ 32)

/-- The 16-byte MD5 digest of a byte list. -/
def md5Digest (msg : List Nat) : List Nat :=
  let r := (chunk64 (md5Pad msg)).foldl md5ProcessChunk
    (0x67452301, 0xefcdab89, 0x98badcfe, 0x10325476)
  toLEBytes r.1 4 ++ toLEBytes r.2.1 4 ++ toLEBytes r.2.2.1 4 ++
    toLEBytes r.2.2.2 4

def hexDigitChar (n : Nat) : Char :=
  if n < 10 then Char.ofNat (48 + n) else Char.ofNat (87 + n)

def byteToHex (b : Nat) : List Char :=
  [hexDigitChar (b / 16), hexDigitChar (b % 16)]

/-- `hashlib.md5(bytes).hexdigest()`: lowercase hex of the digest. -/
def md5Hex (msg : List Nat) : String :=
  String.mk (((md5Digest msg).map byteToHex).flatten)

/-! ### FingerprintCatalog: `backend/app/local_germline_db.py` and
`find_known_pathogenic_variants_from_sequence` -/

/-- One entry of `LOCAL_GERMLINE_VARIANTS`
(`backend/app/local_germline_db.py`, lines 22-91). -/
structure GermlineVariant where
  code : String
  gene : String
  short_name : String
  hgvs_c : String
  hgvs_p : String
  variant_type : String
  pathogenicity : String
  main_cancers : List String
  clinvar_url : String
  fasta_md5 : String
  fasta_length : Nat
deriving DecidableEq

/-- `LOCAL_GERMLINE_VARIANTS` (`backend/app/local_germline_db.py`,
lines 22-91). -/
def LOCAL_GERMLINE_VARIANTS : List GermlineVariant :=
  [{ code := "BRCA1_185delAG", gene := "BRCA1", short_name := "185delAG",
     hgvs_c := "c.68_69delAG", hgvs_p := "p.Glu23Valfs*17",
     variant_type := "frameshift_deletion", pathogenicity := "Pathogenic",
     main_cancers := ["Cáncer de mama hereditario",
       "Cáncer de ovario hereditario"],
     clinvar_url := "https://www.ncbi.nlm.nih.gov/clinvar/RCV000019231/",
     fasta_md5 := "798d0464293e369cd14b7da34754efc9", fasta_length := 7086 },
   { code := "BRCA1_5382insC", gene := "BRCA1", short_name := "5382insC",
     hgvs_c := "c.5266dupC", hgvs_p := "p.Gln1756Profs*74",
     variant_type := "frameshift_duplication", pathogenicity := "Pathogenic",
     main_cancers := ["Cáncer de mama hereditario",
       "Cáncer de ovario hereditario"],
     clinvar_url := "https://www.ncbi.nlm.nih.gov/clinvar/RCV000031174/",
     fasta_md5 := "cd56a9f82e35e3a139a56d8432c67ed4", fasta_length := 7089 },
   { code := "BRCA2_2808_2811delACAA", gene := "BRCA2",
     short_name := "2808_2811delACAA", hgvs_c := "c.2808_2811delACAA",
     hgvs_p := "p.Ala938Profs*21", variant_type := "frameshift_deletion",
     pathogenicity := "Pathogenic",
     main_cancers := ["Cáncer de mama hereditario",
       "Cáncer de ovario hereditario"],
     clinvar_url := "https://www.ncbi.nlm.nih.gov/clinvar/RCV000044952/",
     fasta_md5 := "00a84de8f78dd7edfa1e187bcecbcf4e", fasta_length := 11950 },
   { code := "BRCA2_6174delT", gene := "BRCA2", short_name := "6174delT",
     hgvs_c := "c.5946delT", hgvs_p := "p.Ser1982Argfs*22",
     variant_type := "frameshift_deletion", pathogenicity := "Pathogenic",
     main_cancers := ["Cáncer de mama hereditario",
       "Cáncer de ovario hereditario"],
     clinvar_url := "https://www.ncbi.nlm.nih.gov/clinvar/RCV000045411/",
     fasta_md5 := "bb41f7c37bcff0f2a538006028b1787d", fasta_length := 11953 }]

/-- The hit dict appended by
`find_known_pathogenic_variants_from_sequence` (lines 169-181): the catalog
entry minus its fingerprint fields. -/
structure PathogenicHit where
  gene : String
  code : String
  short_name : String
  hgvs_c : String
  hgvs_p : String
  variant_type : String
  pathogenicity : String
  main_cancers : List String
  clinvar_url : String
deriving DecidableEq

def hitOf (v : GermlineVariant) : PathogenicHit :=
  ⟨v.gene, v.code, v.short_name, v.hgvs_c, v.hgvs_p, v.variant_type,
    v.pathogenicity, v.main_cancers, v.clinvar_url⟩

/-- `find_known_pathogenic_variants_from_sequence`
(`backend/app/routers/analyses.py`, lines 142-183): upper-case the sequence,
fingerprint it by MD5 over the ASCII codes plus its length, and return the
catalog entries of the requested gene with exactly this fingerprint.  An
empty sequence returns `[]` immediately. -/
def find_known_pathogenic_variants_from_sequence (seq : List Char)
    (gene : String) : List PathogenicHit :=
  if seq = [] then []
  else
    let sequ := seq.map Char.toUpper
    let md5 := md5Hex (sequ.map Char.toNat)
    let length := sequ.length
    (LOCAL_GERMLINE_VARIANTS.filter
      (fun v => v.gene = gene ∧ v.fasta_md5 = md5 ∧
        v.fasta_length = length)).map hitOf

/-- Exact-fingerprint characterization of the catalog matcher: the hits are
precisely the catalog entries of the gene whose stored length equals the
sequence length and whose stored digest equals the MD5 hex digest of the
upper-cased sequence bytes.  (The `seq = []` early return agrees with the
filter because no catalog entry has `fasta_length = 0`.) -/
theorem find_known_eq_filter (seq : List Char) (gene : String) :
    find_known_pathogenic_variants_from_sequence seq gene =
      (LOCAL_GERMLINE_VARIANTS.filter
        (fun v => v.gene = gene ∧
          v.fasta_md5 = md5Hex ((seq.map Char.toUpper).map Char.toNat) ∧
          v.fasta_length = seq.length)).map hitOf := by
  unfold find_known_pathogenic_variants_from_sequence
  by_cases h : seq = []
  · subst h
    simp
    intro v hv h1 h2
    fin_cases hv <;> decide
  · simp only [h, if_false, List.length_map]

/-! ### ResultAggregator: `build_text_summary` and
`run_germline_analysis` -/

/-- A per-gene block of the `details_dict`
(`backend/app/routers/analyses.py`, lines 379-394). -/
structure GeneDetails where
  ref_header : String
  ref_length : Nat
  sample_header : String
  sample_length : Nat
  snv_count : Nat
  snvs : List VariantCall
deriving DecidableEq

/-- The `details_dict` built by `run_germline_analysis` (lines 372-399). -/
structure AnalysisDetails where
  patient_id : Nat
  generated_at : String
  rules_source : List String
  brca1 : GeneDetails
  brca2 : GeneDetails
  pathogenic_brca1 : List PathogenicHit
  pathogenic_brca2 : List PathogenicHit
deriving DecidableEq

/-- `build_text_summary` (`backend/app/routers/analyses.py`,
lines 198-246). -/
def build_text_summary (details : AnalysisDetails) : String :=
  let snv_brca1 := details.brca1.snv_count
  let snv_brca2 := details.brca2.snv_count
  let total_snvs := snv_brca1 + snv_brca2
  let all_hits := details.pathogenic_brca1 ++ details.pathogenic_brca2
  let parte1 :=
    "Se detectaron " ++ toString total_snvs ++
      " diferencias simples (SNV) entre las secuencias del paciente " ++
      "y las referencias internas (BRCA1: " ++ toString snv_brca1 ++
      "; BRCA2: " ++ toString snv_brca2 ++ ")."
  let parte2 :=
    if all_hits.isEmpty then
      " En la mini base de datos germinal local de Oncoatlas no se " ++
        "identificaron variantes con anotación clínica para estas secuencias."
    else
      let frases := all_hits.map (fun hit =>
        let cancers := String.intercalate ", " hit.main_cancers
        let label := hit.gene ++ " " ++ hit.short_name ++ " (" ++
          hit.hgvs_c ++ ")"
        if cancers ≠ "" then
          label ++ ", " ++ hit.pathogenicity ++ ", asociado a " ++
            cancers ++ "."
        else label ++ ", " ++ hit.pathogenicity ++ ".")
      " En la mini base de datos germinal local de Oncoatlas se " ++
        "reconocieron variantes con anotación clínica: " ++
        String.intercalate " " frases
  let parte3 :=
    " Este resultado es de uso académico/didáctico y debe confirmarse " ++
      "con pruebas de laboratorio y una base de datos genética completa " ++
      "antes de usarse en clínica."
  parte1 ++ parte2 ++ parte3

/-- The reference configuration loaded once by `load_reference_sequences`
(lines 55-66) from `backend/refs` (those FASTA files are data, not part of
the sources). -/
structure ReferenceConfig where
  brca1_header : String
  brca1_seq : String
  brca2_header : String
  brca2_seq : String
deriving DecidableEq

/-- The computational core of the endpoint `run_germline_analysis`
(`backend/app/routers/analyses.py`, lines 320-411): parse the two uploaded
FASTA texts, reject empty sequences (the HTTP 400 is modelled as
`Except.error`), diff both genes against the configured references with a
preview limit of 500, match the local catalog, and assemble the details and
the summary.  The reference configuration, patient id, upload filenames and
the `datetime.utcnow()` timestamp are parameters; persistence is out of
scope. -/
def run_germline_analysis (refs : ReferenceConfig) (patient_id : Nat)
    (now : String) (brca1_text brca2_text : String)
    (brca1_filename brca2_filename : String) :
    Except String (AnalysisDetails × String) :=
  let p1 := read_uploaded_fasta brca1_text
  let p2 := read_uploaded_fasta brca2_text
  if p1.2 = "" ∨ p2.2 = "" then
    .error
      "Los archivos FASTA de BRCA1 y BRCA2 del paciente no pueden estar vacíos."
  else
    let brca1_res := find_snvs_simple refs.brca1_seq.toList p1.2.toList
      "BRCA1" 500
    let brca2_res := find_snvs_simple refs.brca2_seq.toList p2.2.toList
      "BRCA2" 500
    let details : AnalysisDetails :=
      { patient_id := patient_id,
        generated_at := now,
        rules_source :=
          ["Alineamiento simple posición a posición BRCA1/BRCA2 (SNV).",
           "Mini base de datos local de variantes germinales patogénicas (MD5 + longitud)."],
        brca1 :=
          { ref_header := refs.brca1_header,
            ref_length := refs.brca1_seq.length,
            sample_header := if p1.1 ≠ "" then p1.1 else brca1_filename,
            sample_length := p1.2.length,
            snv_count := brca1_res.2,
            snvs := brca1_res.1 },
        brca2 :=
          { ref_header := refs.brca2_header,
            ref_length := refs.brca2_seq.length,
            sample_header := if p2.1 ≠ "" then p2.1 else brca2_filename,
            sample_length := p2.2.length,
            snv_count := brca2_res.2,
            snvs := brca2_res.1 },
        pathogenic_brca1 :=
          find_known_pathogenic_variants_from_sequence p1.2.toList "BRCA1",
        pathogenic_brca2 :=
          find_known_pathogenic_variants_from_sequence p2.2.toList "BRCA2" }
    .ok (details, build_text_summary details)

/-- Erase the generation timestamp from the details. -/
def stripGeneratedAt (d : AnalysisDetails) : AnalysisDetails :=
  { d with generated_at := "" }

/-- Erase the generation timestamp from a pipeline outcome. -/
def stripRun (r : Except String (AnalysisDetails × String)) :
    Except String (AnalysisDetails × String) :=
  match r with
  | .error e => .error e
  | .ok (d, s) => .ok (stripGeneratedAt d, s)

/-- C9: the germline pipeline is deterministic — two runs with identical
reference configuration, patient, filenames and uploaded sequences produce
identical analysis details and identical summary text apart from the
`generated_at` timestamp, whatever the two run timestamps are. -/
theorem C9_pipeline_deterministic (refs : ReferenceConfig) (pid : Nat)
    (t1 t2 : String) (b1 b2 f1 f2 : String) :
    stripRun (run_germline_analysis refs pid t1 b1 b2 f1 f2) =
      stripRun (run_germline_analysis refs pid t2 b1 b2 f1 f2) := by
  simp only [run_germline_analysis]
  split
  · rfl
  · rfl

end Oncoatlas
